import Mathlib

/-!
Verification of the Al-Kafeel library book extractor
(`src/alkafeel_extractor.py`) by shallow embedding.

The pure text-processing parts (URL validation via `urllib.parse.urlparse`,
book-id derivation, the `pdfData` regex matcher, base64 decode/encode) are
embedded as executable Lean functions over `List Char` / `String`.
The effectful parts (browser session, navigation, frame scan, file writes)
are embedded as explicit state/trace-passing functions over an `Env` record
that abstracts the outcomes of the external world (browser launch, navigation,
the frame list returned by the page, screenshot success), producing an event
trace that records browser/network activity and file writes.
-/

set_option maxRecDepth 100000

namespace Alkafeel

/-! ### List-of-characters helpers (Python `in`, `str.strip`, `\s`) -/

/-- `isPrefixL needle hay`: the first list is a prefix of the second. -/
def isPrefixL : List Char → List Char → Bool
  | [], _ => true
  | _ :: _, [] => false
  | a :: as, b :: bs => a == b && isPrefixL as bs

/-- `containsL needle hay`: Python's substring test `needle in hay`. -/
def containsL (needle : List Char) : List Char → Bool
  | [] => isPrefixL needle []
  | c :: t => isPrefixL needle (c :: t) || containsL needle t

/-- Whitespace characters recognised by Python's `str.strip()` and `\s`
(ASCII fragment, which is all the repository's inputs use). -/
def isPySpace (c : Char) : Bool :=
  c == ' ' || c == '\t' || c == '\n' || c == '\x0d' || c == '\x0b' || c == '\x0c'

/-- Python `str.strip()`: drop leading and trailing whitespace. -/
def pyStrip (s : String) : String :=
  String.mk (((s.data.dropWhile isPySpace).reverse.dropWhile isPySpace).reverse)

/-! ### `urllib.parse.urlparse`, restricted to the fields the code reads

`validate_url` only reads `parsed.netloc` and `parsed.path`.  We follow
CPython's `urlsplit`: strip leading C0-control-or-space characters (leading
only — trailing whitespace is deliberately preserved by the stdlib),
remove tab/CR/LF everywhere, split off a `scheme:` when the text before the
first colon is a valid scheme, take the netloc after `//` up to `/?#`
(raising `ValueError` on mismatched square brackets, modelled as `none`;
the further bracketed-host validation of newer CPythons is not modelled —
no input considered here uses brackets), cut query and fragment, and split
`params` off the path's last segment at `;` as `urlparse` does. -/

def isSchemeChar (c : Char) : Bool :=
  c.isAlpha || c.isDigit || c == '+' || c == '-' || c == '.'

/-- Leading/trailing characters stripped by `urlsplit` (C0 controls and space). -/
def isC0OrSpace (c : Char) : Bool := c.toNat ≤ 32

/-- Characters removed anywhere in the URL by `urlsplit`. -/
def isUnsafeUrlChar (c : Char) : Bool := c == '\t' || c == '\x0d' || c == '\n'

/-- Drop a leading `scheme:` when present (its value is unused by the code). -/
def dropScheme (url : List Char) : List Char :=
  match url.findIdx? (· == ':') with
  | none => url
  | some i =>
    if 0 < i
        && (url.headD ' ').isAlpha && (url.headD ' ').toNat < 128
        && (url.take i).all isSchemeChar
    then url.drop (i + 1)
    else url

/-- Split `//netloc` off the front: netloc runs to the first `/`, `?` or `#`.
Returns `none` when there is no `//`. -/
def splitNetloc (url : List Char) : Option (List Char × List Char) :=
  match url with
  | '/' :: '/' :: rest =>
    let netloc := rest.takeWhile (fun c => !(c == '/' || c == '?' || c == '#'))
    some (netloc, rest.drop netloc.length)
  | _ => none

/-- `urlparse`'s `_splitparams`: cut the path at the first `;` that occurs in
its last segment (after the last `/`; from position 0 when it has no `/`). -/
def splitParams (path : List Char) : List Char :=
  if containsL [';'] path then
    let lastSlash := (path.length - 1) - (path.reverse.findIdx (· == '/'))
    let searchFrom := if containsL ['/'] path then lastSlash else 0
    match (path.drop searchFrom).findIdx? (· == ';') with
    | none => path
    | some j => path.take (searchFrom + j)
  else path

/-- The `(netloc, path)` fields of `urlparse(url)`; `none` models the
`ValueError` CPython raises on mismatched brackets in the netloc. -/
def urlparseNP (url : String) : Option (List Char × List Char) :=
  let u0 := url.data.dropWhile isC0OrSpace
  let u1 := u0.filter (fun c => !isUnsafeUrlChar c)
  let u2 := dropScheme u1
  let (netloc, rest) :=
    match splitNetloc u2 with
    | some (n, r) => (n, r)
    | none => ([], u2)
  if containsL ['['] netloc != containsL [']'] netloc then
    none
  else
    let noFrag := rest.takeWhile (· != '#')
    let noQuery := noFrag.takeWhile (· != '?')
    some (netloc, splitParams noQuery)

/-! ### `AlkafeelExtractor.validate_url` -/

/-- The library's domain checked by `validate_url`. -/
def libDomain : List Char := "library.alkafeel.net".data

/-- The book-path segment checked by `validate_url`. -/
def bookSeg : List Char := "/dic/book/".data

/-- `AlkafeelExtractor.validate_url`: `'library.alkafeel.net' in parsed.netloc`
and `'/dic/book/' in parsed.path`; any parsing exception is caught and yields
`False`. -/
def validate_url (url : String) : Bool :=
  match urlparseNP url with
  | none => false
  | some (netloc, path) => containsL libDomain netloc && containsL bookSeg path

example : validate_url "https://library.alkafeel.net/dic/book/?e=38c15-44c77-06464-07b96-de2b7-82795-3b" = true := by decide
example : validate_url "https://library.alkafeel.net/dic/book/?e=test-id&other=param" = true := by decide
example : validate_url "https://google.com" = false := by decide
example : validate_url "https://library.alkafeel.net/other/path" = false := by decide
example : validate_url "not-a-url" = false := by decide
example : validate_url "https://other-site.net/dic/book/?e=test" = false := by decide

/-! ### Regex search engine for the code's specific patterns

Each of the regular expressions used by the code is compiled by hand into a
match-at-position function; `searchWith` then reproduces `re.search`'s
leftmost-match rule (try each start position in order, first success wins).
None of the patterns needs backtracking: each is a literal/character-class
sequence where every greedy `+`/`*` run is followed by a character outside
the run's class, so the maximal run is the only viable one. -/

/-- `re.search pat s` for a pattern given as a match-at-position function:
the result at the leftmost position where the pattern matches. -/
def searchWith (m : List Char → Option (List Char)) : List Char → Option (List Char)
  | [] => m []
  | c :: t =>
    match m (c :: t) with
    | some r => some r
    | none => searchWith m t

/-! ### `AlkafeelExtractor.extract_book_id` -/

/-- Match-at-position function for `[?&]e=([^&]+)`: a `?` or `&`, the literal
`e=`, then a maximal nonempty run of non-`&` characters (the capture). -/
def eParamAt : List Char → Option (List Char)
  | [] => none
  | c :: rest =>
    if c == '?' || c == '&' then
      match rest with
      | 'e' :: '=' :: r =>
        let run := r.takeWhile (fun ch => !(ch == '&'))
        if run.length > 0 then some run else none
      | _ => none
    else none

/-- `AlkafeelExtractor.extract_book_id`: the captured `e=` query parameter,
falling back to a timestamp-derived name (`now` abstracts
`datetime.now().strftime(...)`). -/
def extract_book_id (url : String) (now : String) : String :=
  match searchWith eParamAt url.data with
  | some cap => String.mk cap
  | none => "book_" ++ now

example : extract_book_id "https://library.alkafeel.net/dic/book/?e=38c15-44c77-06464-07b96-de2b7-82795-3b" "ts" = "38c15-44c77-06464-07b96-de2b7-82795-3b" := by decide
example : extract_book_id "https://library.alkafeel.net/dic/book/?e=test-id&other=param" "ts" = "test-id" := by decide
example : extract_book_id "https://library.alkafeel.net/dic/book/" "20251012" = "book_20251012" := by decide

/-! ### `AlkafeelExtractor.extract_pdf_data` (the payload matcher) -/

/-- A quote character, the `["\']` class of the code's patterns. -/
def isQuote (c : Char) : Bool := c == '"' || c == '\''

/-- `lit` dropped from the front of `s`, or `none` when `s` does not start
with it. -/
def dropLit (lit : List Char) (s : List Char) : Option (List Char) :=
  if isPrefixL lit s then some (s.drop lit.length) else none

/-- `([^"\']+)["\']`: a maximal nonempty run of non-quote characters, which
must be terminated by a quote (i.e. must not run to the end of the input).
Newlines are ordinary members of the class, so captures may span lines. -/
def captureRun (s : List Char) : Option (List Char) :=
  let run := s.takeWhile (fun c => !isQuote c)
  if run.length > 0 && run.length < s.length then some run else none

/-- `["\']([^"\']+)["\']`: opening quote, then `captureRun`. -/
def quotedBody : List Char → Option (List Char)
  | [] => none
  | q :: rest => if isQuote q then captureRun rest else none

/-- Pattern 1, `var pdfData = ["\']([^"\']+)["\']`, at one position. -/
def p1At (s : List Char) : Option (List Char) :=
  (dropLit "var pdfData = ".data s).bind quotedBody

/-- Pattern 2, `pdfData\s*=\s*["\']([^"\']+)["\']`, at one position. -/
def p2At (s : List Char) : Option (List Char) :=
  match dropLit "pdfData".data s with
  | none => none
  | some r1 =>
    match r1.dropWhile isPySpace with
    | '=' :: r2 => quotedBody (r2.dropWhile isPySpace)
    | _ => none

/-- Pattern 3, `["\']data:application/pdf;base64,([^"\']+)["\']`, at one
position. -/
def p3At : List Char → Option (List Char)
  | [] => none
  | q :: rest =>
    if isQuote q then (dropLit "data:application/pdf;base64,".data rest).bind captureRun
    else none

/-- Pattern 4, `["\'](JVBERi[^"\']+)["\']`, at one position; the capture
includes the `JVBERi` literal. -/
def p4At : List Char → Option (List Char)
  | [] => none
  | q :: rest =>
    if isQuote q then
      match dropLit "JVBERi".data rest with
      | none => none
      | some r => (captureRun r).map (fun run => "JVBERi".data ++ run)
    else none

/-- The Python loop over `alternative_patterns`: first matching pattern wins. -/
def firstAlt : List (List Char → Option (List Char)) → List Char → Option (List Char)
  | [], _ => none
  | p :: ps, s =>
    match searchWith p s with
    | some r => some r
    | none => firstAlt ps s

/-- `AlkafeelExtractor.extract_pdf_data`: try the `var pdfData` pattern, then
the three alternative patterns in their listed order; `none` when no pattern
matches anywhere. -/
def extract_pdf_data (content : String) : Option String :=
  match searchWith p1At content.data with
  | some r => some (String.mk r)
  | none => (firstAlt [p2At, p3At, p4At] content.data).map String.mk

example : extract_pdf_data "var pdfData = \"JVBERi0xLjUNJe\";" = some "JVBERi0xLjUNJe" := by decide
example : extract_pdf_data "" = none := by decide
example : extract_pdf_data "var otherData = \"some other data\";" = none := by decide

/-! ### `base64.b64decode` / `base64.b64encode`

`decode_and_save_pdf` calls `base64.b64decode(data)` with the default
`validate=False`, i.e. CPython's `binascii.a2b_base64` in non-strict mode:
characters outside the base64 alphabet are silently discarded, `=` padding
completes a quad when at least two data characters are pending, and
`binascii.Error` is raised exactly when the stream ends mid-quad.  Bytes are
modelled as `Nat` values (< 256 for real inputs). -/

/-- The standard base64 alphabet, in encoding order. -/
def b64Alphabet : List Char :=
  "ABCDEFGHIJKLMNOPQRSTUVWXYZabcdefghijklmnopqrstuvwxyz0123456789+/".data

/-- The 6-bit value of an alphabet character, `none` for non-alphabet ones. -/
def b64Index (c : Char) : Option Nat :=
  let i := b64Alphabet.indexOf c
  if i < b64Alphabet.length then some i else none

/-- The alphabet character for a 6-bit value. -/
def encCh (v : Nat) : Char := b64Alphabet.getD v 'A'

/-- `binascii.a2b_base64` (non-strict): the quad-position/carry loop.
`quadPos` counts data characters within the current group of four, `left`
carries the pending bits, `pads` counts consecutive padding characters, and
`acc` holds the output bytes in reverse.  A padding sequence that completes a
quad ends decoding (the rest of the input is ignored in non-strict mode);
returns `none` (the raised `binascii.Error`) when the input ends with a
partial quad. -/
def a2b : List Char → Nat → Nat → Nat → List Nat → Option (List Nat)
  | [], quadPos, _, _, acc => if quadPos == 0 then some acc.reverse else none
  | c :: t, quadPos, left, pads, acc =>
    if c == '=' then
      if quadPos ≥ 2 then
        if quadPos + (pads + 1) ≥ 4 then some acc.reverse
        else a2b t quadPos left (pads + 1) acc
      else a2b t quadPos left pads acc
    else
      match b64Index c with
      | none => a2b t quadPos left pads acc
      | some v =>
        match quadPos with
        | 0 => a2b t 1 v 0 acc
        | 1 => a2b t 2 (v % 16) 0 ((left * 4 + v / 16) :: acc)
        | 2 => a2b t 3 (v % 4) 0 ((left * 16 + v / 4) :: acc)
        | _ => a2b t 0 0 0 ((left * 64 + v) :: acc)

/-- `base64.b64decode` with default arguments on a `str` argument: the
string must be pure ASCII (else `ValueError` is raised when it is encoded),
then `a2b_base64` runs; `some bytes` on success, `none` for either raised
error. -/
def b64decode (s : String) : Option (List Nat) :=
  if s.data.any (fun c => c.toNat ≥ 128) then none
  else a2b s.data 0 0 0 []

/-- `base64.b64encode` (standard alphabet, `=`-padded), used to state the
round-trip property. -/
def b64encode : List Nat → List Char
  | [] => []
  | [a] => [encCh (a / 4), encCh (a % 4 * 16), '=', '=']
  | [a, b] => [encCh (a / 4), encCh (a % 4 * 16 + b / 16), encCh (b % 16 * 4), '=']
  | a :: b :: c :: t =>
    encCh (a / 4) :: encCh (a % 4 * 16 + b / 16) ::
      encCh (b % 16 * 4 + c / 64) :: encCh (c % 64) :: b64encode t

example : b64decode "QUJD" = some [65, 66, 67] := by decide
example : b64decode "QQ==" = some [65] := by decide
example : b64decode "QQ" = none := by decide
example : b64decode "QUJ" = none := by decide
example : b64decode "QUJ D" = some [65, 66, 67] := by decide
example : b64decode "QQ==QQ==" = some [65] := by decide
example : b64decode "A+/=" = some [3, 239] := by decide
example : b64decode "AB==CD" = some [0] := by decide
example : b64decode "Q===" = none := by decide
example : b64decode "====" = some [] := by decide
example : String.mk (b64encode [37, 80, 68, 70]) = "JVBERg==" := by decide
example : b64decode "JVBERg==" = some [37, 80, 68, 70] := by decide

/-! ### `AlkafeelExtractor.decode_and_save_pdf` and the pdfs/ store

The artifact path is `output_dir / "pdfs" / f"{book_id}.pdf"`.  The
filesystem is modelled as an association list from paths to byte contents in
which a write replaces any previous entry for the same path (what opening a
file with mode `wb` does). -/

/-- The deterministic artifact path `{output_dir}/pdfs/{book_id}.pdf`. -/
def pdfPath (output_dir book_id : String) : String :=
  output_dir ++ "/pdfs/" ++ book_id ++ ".pdf"

/-- A modelled filesystem: one entry per path. -/
abbrev FS : Type := List (String × List Nat)

/-- Writing a file: replaces any entry at the same path (mode `wb`). -/
def fsWrite (fs : FS) (p : String) (b : List Nat) : FS :=
  (p, b) :: List.filter (fun e => !(e.1 == p)) fs

/-- Reading a file back. -/
def fsRead (fs : FS) (p : String) : Option (List Nat) :=
  (List.find? (fun e => e.1 == p) fs).map (fun e => e.2)

/-- How many directory entries a path has (a write must overwrite, never
create a second entry). -/
def fsCount (fs : FS) (p : String) : Nat :=
  (List.filter (fun e => e.1 == p) fs).length

/-- `AlkafeelExtractor.decode_and_save_pdf` run against the modelled
filesystem: decode the payload and write the bytes to the deterministic
path; a `binascii.Error` is caught inside the method, which then returns
`None` and performs no write. -/
def decode_and_save_pdf (fs : FS) (pdf_data_b64 book_id output_dir : String) :
    Option String × FS :=
  match b64decode pdf_data_b64 with
  | none => (none, fs)
  | some bytes =>
    let p := pdfPath output_dir book_id
    (some p, fsWrite fs p bytes)

/-! ### Page Session Driver: `extract_iframe_content`

The driver-facing world is abstracted by a list of `Frame` records: `doc`
models the result of `iframe.content_frame()` (`none` when the content
document cannot be resolved, which the code skips; an exception inside the
per-frame `try` has the same observable effect), its `text` field models
`frame.text_content('body')`, and `shotOk` models whether the
`page.screenshot` call during that frame's processing would succeed.
Observable actions are recorded in an event trace. -/

/-- The rendered content document of a frame. -/
structure FrameDoc where
  text : Option String
deriving DecidableEq

/-- One `<iframe>` element as the driver sees it. -/
structure Frame where
  src : Option String
  doc : Option FrameDoc
  shotOk : Bool
deriving DecidableEq

/-- The dictionary returned for an accepted frame (`iframe_index` is the
1-based `i+1` of the code). -/
structure FrameContent where
  iframe_index : Nat
  iframe_src : Option String
  content : String
  content_length : Nat
deriving DecidableEq

/-- Observable events of one orchestrator run. -/
inductive Ev where
  | launchTried
  | browserLaunched
  | navTried (url : String)
  | frameTried (i : Nat)
  | screenshot (book_id : String) (i : Nat) (ok : Bool)
  | pdfWrite (path : String)
  | metaWrite (path : String)
  | browserClosed
deriving DecidableEq

/-- Occurrences of an event in a trace. -/
def countEv (e : Ev) (l : List Ev) : Nat :=
  (l.filter (fun x => decide (x = e))).length

/-- The `for i, iframe in enumerate(iframe_elements)` loop: skip a frame
whose content document does not resolve, or whose text is missing/falsy, or
whose `strip()`ped text is shorter than 100 characters; on the first
surviving frame, attempt one screenshot (failure merely logged) and return
its data.  `i` is the 0-based loop counter. -/
def scanFrames (book_id : String) : List Frame → Nat → Option FrameContent × List Ev
  | [], _ => (none, [])
  | f :: rest, i =>
    match f.doc with
    | none =>
      let (r, evs) := scanFrames book_id rest (i + 1)
      (r, Ev.frameTried (i + 1) :: evs)
    | some d =>
      match d.text with
      | none =>
        let (r, evs) := scanFrames book_id rest (i + 1)
        (r, Ev.frameTried (i + 1) :: evs)
      | some txt =>
        if txt.length == 0 || (pyStrip txt).length < 100 then
          let (r, evs) := scanFrames book_id rest (i + 1)
          (r, Ev.frameTried (i + 1) :: evs)
        else
          (some ⟨i + 1, f.src, txt, txt.length⟩,
           [Ev.frameTried (i + 1), Ev.screenshot book_id (i + 1) f.shotOk])

/-- `AlkafeelExtractor.extract_iframe_content`: `None` with no frame events
when the page has no iframes, otherwise the scan above. -/
def extract_iframe_content (frames : List Frame) (book_id : String) :
    Option FrameContent × List Ev :=
  if frames.isEmpty then (none, []) else scanFrames book_id frames 0

/-! ### Extraction Orchestrator: `extract_book` -/

/-- A point at which an external cancellation (`asyncio.CancelledError`,
which `except Exception` does not catch but `finally` still runs for) can
arrive while the session is open. -/
inductive CancelPoint where
  | atNav
  | atFrames
deriving DecidableEq

/-- The external world of one `extract_book` run: whether the browser
launches, whether navigation succeeds (`navigate_to_book` catches its own
errors and returns `False` on timeout or navigation fault), the page's
frames, the timestamp used by the book-id fallback, and an optional
cancellation point. -/
structure Env where
  launchOk : Bool
  navOk : Bool
  frames : List Frame
  now : String
  cancel : Option CancelPoint

/-- The result dictionary of `extract_book`, with one `Option` field per key
that is present on some paths and absent on others.  `duration` models the
presence of the `extraction_duration` key (its clock value is abstracted to
`0`). -/
structure BookResult where
  success : Bool
  error : Option String
  url : String
  book_id : Option String
  pdf_path : Option String
  duration : Option Nat
deriving DecidableEq

/-- A run either returns a result dictionary or is torn down by a
propagating cancellation. -/
inductive BookOutcome where
  | res (r : BookResult)
  | cancelled
deriving DecidableEq

/-- The early-return dictionary `{'success': False, 'error': 'Invalid URL',
'url': url}` — note it carries no `extraction_duration` key. -/
def invalidResult (url : String) : BookResult :=
  { success := false, error := some "Invalid URL", url := url,
    book_id := none, pdf_path := none, duration := none }

/-- The `except Exception` dictionary: failure with message, book id and
duration. -/
def failResult (url bid msg : String) : BookResult :=
  { success := false, error := some msg, url := url,
    book_id := some bid, pdf_path := none, duration := some 0 }

/-- `AlkafeelExtractor.extract_book`: validate, derive the id, then the
`try/except/finally` pipeline.  The trace records the browser/network
activity; `finally` closes the browser whenever `setup_browser` succeeded
(when it did not, `browser` is still `None` and no close happens). -/
def extract_book (env : Env) (url output_dir : String) : BookOutcome × List Ev :=
  if validate_url url = false then
    (.res (invalidResult url), [])
  else
    let bid := extract_book_id url env.now
    if env.launchOk = false then
      (.res (failResult url bid "launch failure"), [.launchTried])
    else
      match env.cancel with
      | some .atNav =>
        (.cancelled, [.launchTried, .browserLaunched, .navTried url, .browserClosed])
      | _ =>
        if env.navOk = false then
          (.res (failResult url bid "Failed to navigate to book page"),
           [.launchTried, .browserLaunched, .navTried url, .browserClosed])
        else
          match env.cancel with
          | some .atFrames =>
            (.cancelled, [.launchTried, .browserLaunched, .navTried url, .browserClosed])
          | _ =>
            let pre : List Ev := [.launchTried, .browserLaunched, .navTried url]
            match extract_iframe_content env.frames bid with
            | (none, fevs) =>
              (.res (failResult url bid "Failed to extract iframe content"),
               pre ++ fevs ++ [.browserClosed])
            | (some fc, fevs) =>
              match extract_pdf_data fc.content with
              | none =>
                (.res (failResult url bid "Failed to extract PDF data"),
                 pre ++ fevs ++ [.browserClosed])
              | some b64 =>
                match b64decode b64 with
                | none =>
                  (.res (failResult url bid "Failed to decode/save PDF"),
                   pre ++ fevs ++ [.browserClosed])
                | some _ =>
                  let p := pdfPath output_dir bid
                  let mp := output_dir ++ "/metadata/" ++ bid ++ "_metadata.json"
                  (.res { success := true, error := none, url := url,
                          book_id := some bid, pdf_path := some p, duration := some 0 },
                   pre ++ fevs ++ [.pdfWrite p, .metaWrite mp, .browserClosed])

/-! ### Batch Runner: `extract_multiple_books` -/

/-- An unstructured fault escaping the batch loop: a propagating
cancellation, or the `ZeroDivisionError` from the `success_rate` line when
the URL list is empty. -/
inductive BatchFault where
  | cancelledFault
  | zeroDivision
deriving DecidableEq

/-- The `results` dictionary of `extract_multiple_books`. -/
structure BatchSummary where
  total_books : Nat
  successful : List BookResult
  failed : List BookResult
  success_rate : ℚ
deriving DecidableEq

/-- The `for i, url in enumerate(...)` loop body: run the orchestrator on
each URL in order, appending each result to the winners or losers list
according to its `success` flag; a cancellation propagates out. -/
def batchLoop (envf : String → Env) (output_dir : String) :
    List String → Option (List BookResult × List BookResult)
  | [] => some ([], [])
  | u :: t =>
    match (extract_book (envf u) u output_dir).1 with
    | .cancelled => none
    | .res r =>
      match batchLoop envf output_dir t with
      | none => none
      | some (s, f) => some (if r.success then (r :: s, f) else (s, r :: f))

/-- `extract_multiple_books`: run the loop, then compute
`success_rate = len(successful) / len(urls) * 100` — a division that raises
`ZeroDivisionError` when `urls` is empty. -/
def extract_multiple_books (envf : String → Env) (output_dir : String)
    (urls : List String) : Except BatchFault BatchSummary :=
  match batchLoop envf output_dir urls with
  | none => .error .cancelledFault
  | some (s, f) =>
    if urls.length = 0 then .error .zeroDivision
    else .ok { total_books := urls.length, successful := s, failed := f,
               success_rate := (s.length : ℚ) / (urls.length : ℚ) * 100 }

/-! ### Derived notions used to state the claims -/

/-- A character that `a2b_base64` does not discard: an alphabet character or
padding. -/
def isB64Significant (c : Char) : Bool := (b64Index c).isSome || c == '='

/-- The body text a frame's content document renders (empty when absent). -/
def frameText (f : Frame) : String :=
  match f.doc with
  | none => ""
  | some d =>
    match d.text with
    | none => ""
    | some t => t

/-- The acceptance test the frame loop actually applies: the content document
resolves, text is present and truthy, and the `strip()`ped text has at least
100 characters. -/
def qualifies (f : Frame) : Bool :=
  match f.doc with
  | none => false
  | some d =>
    match d.text with
    | none => false
    | some txt => !(txt.length == 0 || (pyStrip txt).length < 100)

/-- The first qualifying frame with its 1-based index (`i` is the 0-based
position of the head of the remaining list). -/
def firstQual : List Frame → Nat → Option (Nat × Frame)
  | [], _ => none
  | f :: t, i => if qualifies f then some (i + 1, f) else firstQual t (i + 1)

/-- Overwrite a frame's screenshot outcome (used to state that screenshot
success or failure never affects the scan). -/
def setShot (b : Bool) (f : Frame) : Frame := { f with shotOk := b }

/-- Is an event a screenshot attempt? -/
def isShot : Ev → Bool
  | .screenshot _ _ _ => true
  | _ => false

/-- The result record of one orchestrator run, under the assumption that the
run was not cancelled (the fallback value is unreachable then). -/
def resultOf (envf : String → Env) (output_dir u : String) : BookResult :=
  match (extract_book (envf u) u output_dir).1 with
  | .res r => r
  | .cancelled => invalidResult u

/-! ### Helper lemmas: base64 round trip -/

/-- Alphabet characters are not padding and decode back to their 6-bit
value. -/
theorem encCh_spec : ∀ v < 64, ((encCh v == '=') = false ∧ b64Index (encCh v) = some v) := by
  decide

/-- Every character the encoder emits is ASCII. -/
theorem encCh_ascii (v : Nat) : ((encCh v).toNat ≥ 128) = false := by
  by_cases h : v < 64
  · revert v h
    decide
  · have : encCh v = 'A' := by
      unfold encCh List.getD
      rw [List.get?_eq_none.mpr (by simp [b64Alphabet]; omega)]
      rfl
    simp [this]

/-- A data character at quad position 0. -/
theorem a2b_step0 (v : Nat) (hv : v < 64) (t : List Char) (left pads : Nat)
    (acc : List Nat) : a2b (encCh v :: t) 0 left pads acc = a2b t 1 v 0 acc := by
  have h := encCh_spec v hv
  simp [a2b, h.1, h.2]

/-- A data character at quad position 1 emits the first byte of the group. -/
theorem a2b_step1 (v : Nat) (hv : v < 64) (t : List Char) (left pads : Nat)
    (acc : List Nat) :
    a2b (encCh v :: t) 1 left pads acc =
      a2b t 2 (v % 16) 0 ((left * 4 + v / 16) :: acc) := by
  have h := encCh_spec v hv
  simp [a2b, h.1, h.2]

/-- A data character at quad position 2 emits the second byte of the group. -/
theorem a2b_step2 (v : Nat) (hv : v < 64) (t : List Char) (left pads : Nat)
    (acc : List Nat) :
    a2b (encCh v :: t) 2 left pads acc =
      a2b t 3 (v % 4) 0 ((left * 16 + v / 4) :: acc) := by
  have h := encCh_spec v hv
  simp [a2b, h.1, h.2]

/-- A data character at quad position 3 emits the third byte of the group. -/
theorem a2b_step3 (v : Nat) (hv : v < 64) (t : List Char) (left pads : Nat)
    (acc : List Nat) :
    a2b (encCh v :: t) 3 left pads acc =
      a2b t 0 0 0 ((left * 64 + v) :: acc) := by
  have h := encCh_spec v hv
  simp [a2b, h.1, h.2]

/-- A first padding character two characters into a quad is accumulated. -/
theorem a2b_pad2_cont (t : List Char) (left : Nat) (acc : List Nat) :
    a2b ('=' :: t) 2 left 0 acc = a2b t 2 left 1 acc := by
  simp [a2b]

/-- A second padding character two characters into a quad ends the decode. -/
theorem a2b_pad2_done (t : List Char) (left : Nat) (acc : List Nat) :
    a2b ('=' :: t) 2 left 1 acc = some acc.reverse := by
  simp [a2b]

/-- A padding character three characters into a quad ends the decode. -/
theorem a2b_pad3_done (t : List Char) (left : Nat) (acc : List Nat) :
    a2b ('=' :: t) 3 left 0 acc = some acc.reverse := by
  simp [a2b]

/-- Decoding an encoded byte list recovers exactly those bytes, whatever was
accumulated before. -/
theorem a2b_encode : ∀ (l : List Nat), (∀ x ∈ l, x < 256) →
    ∀ acc : List Nat, a2b (b64encode l) 0 0 0 acc = some (acc.reverse ++ l)
  | [], _, acc => by simp [b64encode, a2b]
  | [a], h, acc => by
    have ha : a < 256 := h a (by simp)
    rw [b64encode, a2b_step0 (a / 4) (by omega), a2b_step1 (a % 4 * 16) (by omega)]
    have e1 : a / 4 * 4 + a % 4 * 16 / 16 = a := by omega
    rw [e1, a2b_pad2_cont, a2b_pad2_done]
    simp
  | [a, b], h, acc => by
    have ha : a < 256 := h a (by simp)
    have hb : b < 256 := h b (by simp)
    rw [b64encode, a2b_step0 (a / 4) (by omega), a2b_step1 (a % 4 * 16 + b / 16) (by omega)]
    have e1 : a / 4 * 4 + (a % 4 * 16 + b / 16) / 16 = a := by omega
    have e2 : (a % 4 * 16 + b / 16) % 16 = b / 16 := by omega
    rw [e1, e2, a2b_step2 (b % 16 * 4) (by omega)]
    have e3 : b / 16 * 16 + b % 16 * 4 / 4 = b := by omega
    rw [e3, a2b_pad3_done]
    simp
  | a :: b :: c :: t, h, acc => by
    have ha : a < 256 := h a (by simp)
    have hb : b < 256 := h b (by simp)
    have hc : c < 256 := h c (by simp)
    have ht : ∀ x ∈ t, x < 256 := fun x hx => h x (by simp [hx])
    rw [b64encode, a2b_step0 (a / 4) (by omega), a2b_step1 (a % 4 * 16 + b / 16) (by omega),
      a2b_step2 (b % 16 * 4 + c / 64) (by omega), a2b_step3 (c % 64) (by omega)]
    have e1 : a / 4 * 4 + (a % 4 * 16 + b / 16) / 16 = a := by omega
    have e2 : (a % 4 * 16 + b / 16) % 16 = b / 16 := by omega
    have e3 : b / 16 * 16 + (b % 16 * 4 + c / 64) / 4 = b := by omega
    have e4 : (b % 16 * 4 + c / 64) % 4 = c / 64 := by omega
    have e5 : c / 64 * 64 + c % 64 = c := by omega
    rw [e1, e2, e3, e4, e5, a2b_encode t ht (c :: b :: a :: acc)]
    simp

/-- Everything the encoder emits is ASCII, so the `str`-to-bytes encoding in
`b64decode` cannot fail on an encoded payload. -/
theorem b64encode_ascii : ∀ l : List Nat,
    ((b64encode l).any (fun c => c.toNat ≥ 128)) = false
  | [] => by simp [b64encode]
  | [a] => by simp [b64encode, encCh_ascii]
  | [a, b] => by simp [b64encode, encCh_ascii]
  | a :: b :: c :: t => by
    simp [b64encode, encCh_ascii, b64encode_ascii t]

/-- `b64decode` inverts `b64encode` on byte lists. -/
theorem b64decode_encode (l : List Nat) (h : ∀ x ∈ l, x < 256) :
    b64decode (String.mk (b64encode l)) = some l := by
  show (if (b64encode l).any (fun c => c.toNat ≥ 128) then none
        else a2b (b64encode l) 0 0 0 []) = some l
  rw [b64encode_ascii l]
  simpa using a2b_encode l h []

/-! ### Helper lemmas: non-alphabet characters are discarded, not rejected -/

/-- A padding character, at any machine state. -/
theorem a2b_pad_any (t : List Char) (q left pads : Nat) (acc : List Nat) :
    a2b ('=' :: t) q left pads acc =
      if q ≥ 2 then
        if q + (pads + 1) ≥ 4 then some acc.reverse
        else a2b t q left (pads + 1) acc
      else a2b t q left pads acc := by
  simp [a2b]

/-- A character of the alphabet, at any machine state. -/
theorem a2b_data_step (c : Char) (v : Nat) (hne : (c == '=') = false)
    (hv : b64Index c = some v) (t : List Char) (q left pads : Nat) (acc : List Nat) :
    a2b (c :: t) q left pads acc =
      match q with
      | 0 => a2b t 1 v 0 acc
      | 1 => a2b t 2 (v % 16) 0 ((left * 4 + v / 16) :: acc)
      | 2 => a2b t 3 (v % 4) 0 ((left * 16 + v / 4) :: acc)
      | _ => a2b t 0 0 0 ((left * 64 + v) :: acc) := by
  simp [a2b, hne, hv]

/-- A character outside the alphabet (and not padding) is skipped. -/
theorem a2b_skip_step (c : Char) (hne : (c == '=') = false)
    (hv : b64Index c = none) (t : List Char) (q left pads : Nat) (acc : List Nat) :
    a2b (c :: t) q left pads acc = a2b t q left pads acc := by
  simp [a2b, hne, hv]

/-- Discarding the characters `a2b_base64` would skip anyway does not change
its result. -/
theorem a2b_filter : ∀ (l : List Char) (q left pads : Nat) (acc : List Nat),
    a2b (l.filter isB64Significant) q left pads acc = a2b l q left pads acc
  | [], _, _, _, _ => rfl
  | c :: t, q, left, pads, acc => by
    by_cases hpad : c = '='
    · subst hpad
      have hs : isB64Significant '=' = true := by decide
      simp only [List.filter_cons, hs, if_true]
      rw [a2b_pad_any, a2b_pad_any]
      split
      · split
        · rfl
        · exact a2b_filter t q left (pads + 1) acc
      · exact a2b_filter t q left pads acc
    · have hne : (c == '=') = false := by
        simp [hpad]
      cases hv : b64Index c with
      | some v =>
        have hs : isB64Significant c = true := by simp [isB64Significant, hv]
        simp only [List.filter_cons, hs, if_true]
        rw [a2b_data_step c v hne hv, a2b_data_step c v hne hv]
        match q with
        | 0 => exact a2b_filter t 1 v 0 acc
        | 1 => exact a2b_filter t 2 (v % 16) 0 ((left * 4 + v / 16) :: acc)
        | 2 => exact a2b_filter t 3 (v % 4) 0 ((left * 16 + v / 4) :: acc)
        | _ + 3 => exact a2b_filter t 0 0 0 ((left * 64 + v) :: acc)
      | none =>
        have hs : isB64Significant c = false := by
          simp [isB64Significant, hv, hpad]
        simp only [List.filter_cons, hs, Bool.false_eq_true, if_false]
        rw [a2b_skip_step c hne hv]
        exact a2b_filter t q left pads acc

/-- For ASCII payloads, `b64decode` sees only the base64-significant
characters: the others are discarded, never reported as errors. -/
theorem b64decode_filter (s : String) (h : s.data.all (fun c => c.toNat < 128) = true) :
    b64decode s = b64decode (String.mk (s.data.filter isB64Significant)) := by
  have h1 : (s.data.any fun c => c.toNat ≥ 128) = false := by
    rw [List.any_eq_false]
    intro c hc
    have := List.all_eq_true.mp h c hc
    simp at this ⊢
    omega
  have h2 : ((s.data.filter isB64Significant).any fun c => c.toNat ≥ 128) = false := by
    rw [List.any_eq_false]
    intro c hc
    have := List.all_eq_true.mp h c (List.mem_of_mem_filter hc)
    simp at this ⊢
    omega
  show (if s.data.any fun c => c.toNat ≥ 128 then none else a2b s.data 0 0 0 [])
      = (if (s.data.filter isB64Significant).any fun c => c.toNat ≥ 128 then none
         else a2b (s.data.filter isB64Significant) 0 0 0 [])
  rw [h1, h2]
  simp only [Bool.false_eq_true, if_false]
  exact (a2b_filter s.data 0 0 0 []).symm

/-! ### Helper lemmas: the frame scan -/

/-- `countEv` distributes over concatenation. -/
theorem countEv_append (e : Ev) (l1 l2 : List Ev) :
    countEv e (l1 ++ l2) = countEv e l1 + countEv e l2 := by
  simp [countEv, List.filter_append]

/-- The accepted frame is the first qualifying one, with its 1-based index,
source and text. -/
theorem scanFrames_fst : ∀ (l : List Frame) (i : Nat) (bid : String),
    (scanFrames bid l i).1 =
      (firstQual l i).map (fun q => ⟨q.1, q.2.src, frameText q.2, (frameText q.2).length⟩)
  | [], _, _ => rfl
  | f :: rest, i, bid => by
    have ih := scanFrames_fst rest (i + 1) bid
    rcases hsf : scanFrames bid rest (i + 1) with ⟨r, evs⟩
    rw [hsf] at ih
    cases hdoc : f.doc with
    | none =>
      have hq : qualifies f = false := by simp [qualifies, hdoc]
      simp [scanFrames, hdoc, hsf, firstQual, hq, ih]
    | some d =>
      cases htext : d.text with
      | none =>
        have hq : qualifies f = false := by simp [qualifies, hdoc, htext]
        simp [scanFrames, hdoc, htext, hsf, firstQual, hq, ih]
      | some txt =>
        by_cases hlen : (txt.length == 0 || (pyStrip txt).length < 100) = true
        · have hq : qualifies f = false := by simp [qualifies, hdoc, htext, hlen]
          simp [scanFrames, hdoc, htext, hlen, hsf, firstQual, hq, ih]
        · have hq : qualifies f = true := by
            simp only [qualifies, hdoc, htext]
            simp only [Bool.not_eq_true] at hlen ⊢
            simp [hlen]
          have htf : frameText f = txt := by simp [frameText, hdoc, htext]
          simp [scanFrames, hdoc, htext, hlen, firstQual, hq, htf]

/-- The scan never records a browser-close event (only frame attempts and
screenshots appear in its trace). -/
theorem scanFrames_no_close : ∀ (l : List Frame) (i : Nat) (bid : String),
    countEv Ev.browserClosed (scanFrames bid l i).2 = 0
  | [], _, _ => rfl
  | f :: rest, i, bid => by
    have ih := scanFrames_no_close rest (i + 1) bid
    rcases hsf : scanFrames bid rest (i + 1) with ⟨r, evs⟩
    rw [hsf] at ih
    cases hdoc : f.doc with
    | none => simpa [scanFrames, hdoc, hsf, countEv] using ih
    | some d =>
      cases htext : d.text with
      | none => simpa [scanFrames, hdoc, htext, hsf, countEv] using ih
      | some txt =>
        by_cases hlen : (txt.length == 0 || (pyStrip txt).length < 100) = true
        · simpa [scanFrames, hdoc, htext, hlen, hsf, countEv] using ih
        · simp [scanFrames, hdoc, htext, hlen, countEv]

/-- Exactly one screenshot is attempted when the scan accepts a frame, and
none when it does not. -/
theorem scanFrames_shots : ∀ (l : List Frame) (i : Nat) (bid : String),
    ((scanFrames bid l i).2.filter isShot).length =
      if (scanFrames bid l i).1.isSome then 1 else 0
  | [], _, _ => rfl
  | f :: rest, i, bid => by
    have ih := scanFrames_shots rest (i + 1) bid
    rcases hsf : scanFrames bid rest (i + 1) with ⟨r, evs⟩
    rw [hsf] at ih
    cases hdoc : f.doc with
    | none => simpa [scanFrames, hdoc, hsf, isShot] using ih
    | some d =>
      cases htext : d.text with
      | none => simpa [scanFrames, hdoc, htext, hsf, isShot] using ih
      | some txt =>
        by_cases hlen : (txt.length == 0 || (pyStrip txt).length < 100) = true
        · simpa [scanFrames, hdoc, htext, hlen, hsf, isShot] using ih
        · simp [scanFrames, hdoc, htext, hlen, isShot]

/-- The scan's outcome does not depend on whether screenshots succeed. -/
theorem scanFrames_shot_invariant : ∀ (l : List Frame) (i : Nat) (bid : String) (b : Bool),
    (scanFrames bid (l.map (setShot b)) i).1 = (scanFrames bid l i).1
  | [], _, _, _ => rfl
  | f :: rest, i, bid, b => by
    have ih := scanFrames_shot_invariant rest (i + 1) bid b
    rcases hsf : scanFrames bid rest (i + 1) with ⟨r, evs⟩
    rcases hsg : scanFrames bid (rest.map (setShot b)) (i + 1) with ⟨r2, evs2⟩
    rw [hsf] at ih
    rw [hsg] at ih
    cases hdoc : f.doc with
    | none => simp [scanFrames, setShot, hdoc, hsf, hsg, ih]
    | some d =>
      cases htext : d.text with
      | none => simp [scanFrames, setShot, hdoc, htext, hsf, hsg, ih]
      | some txt =>
        by_cases hlen : (txt.length == 0 || (pyStrip txt).length < 100) = true
        · simp [scanFrames, setShot, hdoc, htext, hlen, hsf, hsg, ih]
        · simp [scanFrames, setShot, hdoc, htext, hlen]

/-! ### Helper lemmas: the batch loop -/

/-- In a run without cancellation, the loop produces exactly the per-URL
results in input order, split by the success flag. -/
theorem batchLoop_filter : ∀ (urls : List String) (envf : String → Env) (output_dir : String),
    (∀ u ∈ urls, (extract_book (envf u) u output_dir).1 ≠ .cancelled) →
    batchLoop envf output_dir urls =
      some ((urls.map (resultOf envf output_dir)).filter (fun r => r.success),
            (urls.map (resultOf envf output_dir)).filter (fun r => !r.success))
  | [], _, _, _ => rfl
  | u :: t, envf, output_dir, h => by
    have hu := h u (by simp)
    have ih := batchLoop_filter t envf output_dir (fun x hx => h x (by simp [hx]))
    cases hout : (extract_book (envf u) u output_dir).1 with
    | cancelled => exact absurd hout hu
    | res r =>
      have hres : resultOf envf output_dir u = r := by simp [resultOf, hout]
      cases hr : r.success with
      | true => simp [batchLoop, hout, ih, hres, hr]
      | false => simp [batchLoop, hout, ih, hres, hr]

/-! ### Claim C1 -/

/-- C1, as stated, is false: `validate_url` tests substring containment of
`library.alkafeel.net` in the netloc, not host equality.  Concretely, the
URL `https://fakelibrary.alkafeel.net/dic/book/?e=x` has host
`fakelibrary.alkafeel.net`, which is not the library's domain, yet
validation passes and the run proceeds to browser/network activity (a
navigation attempt appears in the trace). -/
theorem c1_substring_host_counterexample :
    urlparseNP "https://fakelibrary.alkafeel.net/dic/book/?e=x" =
      some ("fakelibrary.alkafeel.net".data, "/dic/book/".data)
    ∧ "fakelibrary.alkafeel.net" ≠ "library.alkafeel.net"
    ∧ validate_url "https://fakelibrary.alkafeel.net/dic/book/?e=x" = true
    ∧ Ev.navTried "https://fakelibrary.alkafeel.net/dic/book/?e=x" ∈
        (extract_book ⟨true, false, [], "t", none⟩
          "https://fakelibrary.alkafeel.net/dic/book/?e=x" "output").2 := by
  refine ⟨by decide, by decide, by decide, by decide⟩

/-- C1 amended: for every URL whose parsed netloc does not contain
`library.alkafeel.net` as a substring, or whose parsed path does not contain
`/dic/book/` as a substring (the containment checks the code actually
performs), validation fails and `extract_book` returns the Invalid-URL
failure result with an empty trace — no browser or network activity. -/
theorem c1_validation_gate (env : Env) (url output_dir : String)
    (h : ∀ n p, urlparseNP url = some (n, p) →
        containsL libDomain n = false ∨ containsL bookSeg p = false) :
    validate_url url = false
    ∧ extract_book env url output_dir = (.res (invalidResult url), []) := by
  have hv : validate_url url = false := by
    unfold validate_url
    cases hp : urlparseNP url with
    | none => rfl
    | some np =>
      rcases np with ⟨n, p⟩
      rcases h n p hp with h1 | h1 <;> simp [h1]
  exact ⟨hv, by simp [extract_book, hv]⟩

/-- C1 witness: `https://google.com` (host and path both wrong) is rejected
with no activity. -/
theorem c1_validation_gate_witness :
    validate_url "https://google.com" = false
    ∧ extract_book ⟨true, true, [], "t", none⟩ "https://google.com" "output" =
        (.res (invalidResult "https://google.com"), []) :=
  c1_validation_gate ⟨true, true, [], "t", none⟩ "https://google.com" "output"
    (by
      intro n p hp
      rw [show urlparseNP "https://google.com" = some ("google.com".data, [])
        from by decide] at hp
      simp only [Option.some.injEq, Prod.mk.injEq] at hp
      obtain ⟨hn, hp2⟩ := hp
      subst hn
      left
      decide)

/-! ### Claim C2 -/

/-- C2, as stated, is false: the Invalid-URL early return builds its result
dictionary without the `extraction_duration` key, so a returned result
exists whose duration field is unpopulated. -/
theorem c2_duration_missing_counterexample :
    ((extract_book ⟨true, true, [], "t", none⟩ "https://example.com/" "output").1 =
      .res (invalidResult "https://example.com/"))
    ∧ (invalidResult "https://example.com/").duration.isSome = false
    ∧ (invalidResult "https://example.com/").success = false := by
  refine ⟨by decide, by decide, by decide⟩

/-- C2 amended: every returned result populates exactly one of the artifact
path (on success) or the error field (on failure), and the duration field is
populated in every result except the validation-failure result, which omits
it. -/
theorem c2_result_invariant (env : Env) (url output_dir : String) (r : BookResult)
    (h : (extract_book env url output_dir).1 = .res r) :
    (r.success = true → (r.pdf_path.isSome = true ∧ r.error = none))
    ∧ (r.success = false → (r.error.isSome = true ∧ r.pdf_path = none))
    ∧ (validate_url url = true → r.duration.isSome = true) := by
  unfold extract_book at h
  by_cases hv : validate_url url = false
  · rw [if_pos hv] at h
    dsimp only at h
    injection h with h2
    subst h2
    simp [invalidResult, hv]
  · rw [if_neg hv] at h
    split at h
    · dsimp only at h
      injection h with h2
      subst h2
      simp [failResult]
    · split at h
      · dsimp only at h
        simp at h
      · split at h
        · dsimp only at h
          injection h with h2
          subst h2
          simp [failResult]
        · split at h
          · dsimp only at h
            simp at h
          · dsimp only at h
            split at h
            · dsimp only at h
              injection h with h2
              subst h2
              simp [failResult]
            · split at h
              · dsimp only at h
                injection h with h2
                subst h2
                simp [failResult]
              · split at h
                · dsimp only at h
                  injection h with h2
                  subst h2
                  simp [failResult]
                · dsimp only at h
                  injection h with h2
                  subst h2
                  simp

/-- C2 witness: a launch failure on a valid URL yields a failure result with
an error message, no artifact path, and a populated duration. -/
theorem c2_result_invariant_witness :
    (failResult "https://library.alkafeel.net/dic/book/?e=ab" "ab" "launch failure").success = false
    ∧ ((failResult "https://library.alkafeel.net/dic/book/?e=ab" "ab" "launch failure").error.isSome = true
        ∧ (failResult "https://library.alkafeel.net/dic/book/?e=ab" "ab" "launch failure").pdf_path = none)
    ∧ (failResult "https://library.alkafeel.net/dic/book/?e=ab" "ab" "launch failure").duration.isSome = true :=
  ⟨by decide,
   (c2_result_invariant ⟨false, true, [], "t", none⟩
      "https://library.alkafeel.net/dic/book/?e=ab" "output"
      (failResult "https://library.alkafeel.net/dic/book/?e=ab" "ab" "launch failure")
      (by decide)).2.1 (by decide),
   (c2_result_invariant ⟨false, true, [], "t", none⟩
      "https://library.alkafeel.net/dic/book/?e=ab" "output"
      (failResult "https://library.alkafeel.net/dic/book/?e=ab" "ab" "launch failure")
      (by decide)).2.2 (by decide)⟩

/-! ### Claim C9 -/

/-- C9: whenever the browser was launched during a run — success, any step
failure, or a cancellation arriving at a suspension point — the trace
records exactly one browser-close event, and it is the last event before the
run returns. -/
theorem c9_session_close_once (env : Env) (url output_dir : String)
    (h : Ev.browserLaunched ∈ (extract_book env url output_dir).2) :
    countEv Ev.browserClosed (extract_book env url output_dir).2 = 1
    ∧ (extract_book env url output_dir).2.reverse.head? = some Ev.browserClosed := by
  revert h
  unfold extract_book
  split
  · intro h
    simp at h
  · split
    · intro h
      simp at h
    · split
      · intro _
        exact ⟨rfl, rfl⟩
      · split
        · intro _
          exact ⟨rfl, rfl⟩
        · split
          · intro _
            exact ⟨rfl, rfl⟩
          · dsimp only
            split
            case _ fevs heq =>
              intro _
              have hno : countEv Ev.browserClosed fevs = 0 := by
                have h0 := scanFrames_no_close env.frames 0
                  (extract_book_id url env.now)
                unfold extract_iframe_content at heq
                split at heq
                · simp only [Prod.mk.injEq] at heq
                  rw [← heq.2]
                  rfl
                · rw [heq] at h0
                  exact h0
              refine ⟨?_, by simp⟩
              rw [countEv_append, countEv_append, hno]
              rfl
            case _ fc fevs heq =>
              have hno : countEv Ev.browserClosed fevs = 0 := by
                have h0 := scanFrames_no_close env.frames 0
                  (extract_book_id url env.now)
                unfold extract_iframe_content at heq
                split at heq
                · simp at heq
                · rw [heq] at h0
                  exact h0
              split
              · intro _
                refine ⟨?_, by simp⟩
                rw [countEv_append, countEv_append, hno]
                rfl
              · split
                · intro _
                  refine ⟨?_, by simp⟩
                  rw [countEv_append, countEv_append, hno]
                  rfl
                · intro _
                  refine ⟨?_, by simp⟩
                  rw [countEv_append, countEv_append, hno]
                  rfl

/-- C9 witness: the claim's own scenario — navigation times out on a valid
URL — still closes the session exactly once, as the final action. -/
theorem c9_session_close_once_witness :
    Ev.browserLaunched ∈
      (extract_book ⟨true, false, [], "t", none⟩
        "https://library.alkafeel.net/dic/book/?e=ab" "output").2
    ∧ countEv Ev.browserClosed
        (extract_book ⟨true, false, [], "t", none⟩
          "https://library.alkafeel.net/dic/book/?e=ab" "output").2 = 1
    ∧ (extract_book ⟨true, false, [], "t", none⟩
        "https://library.alkafeel.net/dic/book/?e=ab" "output").2.reverse.head?
        = some Ev.browserClosed :=
  ⟨by decide,
   (c9_session_close_once ⟨true, false, [], "t", none⟩
      "https://library.alkafeel.net/dic/book/?e=ab" "output" (by decide)).1,
   (c9_session_close_once ⟨true, false, [], "t", none⟩
      "https://library.alkafeel.net/dic/book/?e=ab" "output" (by decide)).2⟩

/-! ### Claim C3 -/

/-- C3: the matcher is a total function that tries the four patterns
strictly in their listed order and returns the first match's capture:
the run of each pattern is shown equal to one ordered first-match sweep;
each pattern form is exercised independently; each adjacent pair of
patterns is separated by an input on which the earlier one wins; captures
may span embedded newlines; and the empty string and pattern-free text
yield the not-found signal. -/
theorem c3_matcher_order :
    (∀ content : String, extract_pdf_data content =
        (firstAlt [p1At, p2At, p3At, p4At] content.data).map String.mk)
    ∧ extract_pdf_data "var pdfData = \"JVBERi0xLjUNJe\";" = some "JVBERi0xLjUNJe"
    ∧ extract_pdf_data "x pdfData = 'QUJD'" = some "QUJD"
    ∧ extract_pdf_data "src=\"data:application/pdf;base64,QUJD\"" = some "QUJD"
    ∧ extract_pdf_data "x = \"JVBERiABC\"" = some "JVBERiABC"
    ∧ extract_pdf_data "var pdfData = \"JVBE\nRi\";" = some "JVBE\nRi"
    ∧ extract_pdf_data "pdfData = 'A2' var pdfData = 'A1'" = some "A1"
    ∧ extract_pdf_data "pdfData = 'AAA' \"data:application/pdf;base64,BBB\"" = some "AAA"
    ∧ extract_pdf_data "'JVBERiZZ' 'data:application/pdf;base64,CCC'" = some "CCC"
    ∧ extract_pdf_data "" = none
    ∧ extract_pdf_data "var otherData = \"some other data\";" = none := by
  refine ⟨?_, by decide, by decide, by decide, by decide, by decide, by decide,
    by decide, by decide, by decide, by decide⟩
  intro content
  cases h : searchWith p1At content.data with
  | some r => simp [extract_pdf_data, firstAlt, h]
  | none => simp [extract_pdf_data, firstAlt, h]

/-! ### Claim C4 -/

/-- C4, as stated, is false: `base64.b64decode` is called without
`validate=True`, so a payload containing a character outside the base64
alphabet (here a space) is not rejected — the character is discarded, the
decode succeeds, and the artifact is written. -/
theorem c4_nonalphabet_counterexample :
    ("QUJ D".data.any (fun c => !isB64Significant c)) = true
    ∧ decode_and_save_pdf [] "QUJ D" "bk" "output"
        = (some (pdfPath "output" "bk"), [(pdfPath "output" "bk", [65, 66, 67])]) := by
  refine ⟨by decide, by decide⟩

/-- C4 amended: non-alphabet characters in an ASCII payload are discarded
rather than rejected (decoding is insensitive to them), and whenever the
decode does fail — which happens exactly on incorrect padding, i.e. a
partial final quad — the error is caught inside the method, which reports
failure (`None`) and writes no artifact. -/
theorem c4_codec_error_containment :
    (∀ s : String, s.data.all (fun c => c.toNat < 128) = true →
        b64decode s = b64decode (String.mk (s.data.filter isB64Significant)))
    ∧ (∀ (fs : FS) (payload book_id output_dir : String),
        b64decode payload = none →
        decode_and_save_pdf fs payload book_id output_dir = (none, fs)) := by
  constructor
  · exact b64decode_filter
  · intro fs payload bid od h
    simp [decode_and_save_pdf, h]

/-- C4 witness: the space in `QUJ D` is ignored, and the bad-padding payload
`QQ` is caught and reported with no write. -/
theorem c4_codec_error_containment_witness :
    b64decode "QUJ D" = b64decode "QUJD"
    ∧ decode_and_save_pdf [] "QQ" "bk" "output" = (none, []) := by
  constructor
  · have h := c4_codec_error_containment.1 "QUJ D" (by decide)
    have h2 : String.mk ("QUJ D".data.filter isB64Significant) = "QUJD" := by decide
    rw [h2] at h
    exact h
  · exact c4_codec_error_containment.2 [] "QQ" "bk" "output" (by decide)

/-! ### Claim C5 -/

/-- C5: encoding any byte sequence and passing it through the codec stores
exactly those bytes at the deterministic path `{output_dir}/pdfs/{id}.pdf`;
a second invocation with the same id targets the same path and overwrites —
afterwards the path holds the second content and exactly one directory
entry. -/
theorem c5_roundtrip_and_overwrite (b b2 : List Nat) (hb : ∀ x ∈ b, x < 256)
    (hb2 : ∀ x ∈ b2, x < 256) (fs : FS) (book_id output_dir : String) :
    decode_and_save_pdf fs (String.mk (b64encode b)) book_id output_dir =
      (some (pdfPath output_dir book_id), fsWrite fs (pdfPath output_dir book_id) b)
    ∧ decode_and_save_pdf (fsWrite fs (pdfPath output_dir book_id) b)
        (String.mk (b64encode b2)) book_id output_dir =
      (some (pdfPath output_dir book_id),
       fsWrite (fsWrite fs (pdfPath output_dir book_id) b) (pdfPath output_dir book_id) b2)
    ∧ fsRead (fsWrite (fsWrite fs (pdfPath output_dir book_id) b)
        (pdfPath output_dir book_id) b2) (pdfPath output_dir book_id) = some b2
    ∧ fsCount (fsWrite (fsWrite fs (pdfPath output_dir book_id) b)
        (pdfPath output_dir book_id) b2) (pdfPath output_dir book_id) = 1 := by
  refine ⟨?_, ?_, ?_, ?_⟩
  · simp [decode_and_save_pdf, b64decode_encode b hb]
  · simp [decode_and_save_pdf, b64decode_encode b2 hb2]
  · simp [fsRead, fsWrite]
  · simp [fsCount, fsWrite, List.filter_filter]

/-- C5 witness: the PDF magic bytes round-trip through encode, decode and
store, and an overwrite with new bytes is read back. -/
theorem c5_roundtrip_witness :
    (∀ x ∈ [37, 80, 68, 70], x < 256)
    ∧ decode_and_save_pdf [] (String.mk (b64encode [37, 80, 68, 70])) "bk" "output" =
        (some (pdfPath "output" "bk"), fsWrite [] (pdfPath "output" "bk") [37, 80, 68, 70])
    ∧ fsRead (fsWrite (fsWrite [] (pdfPath "output" "bk") [37, 80, 68, 70])
        (pdfPath "output" "bk") [1, 2, 3]) (pdfPath "output" "bk") = some [1, 2, 3] :=
  ⟨by decide,
   (c5_roundtrip_and_overwrite [37, 80, 68, 70] [1, 2, 3] (by decide) (by decide)
      [] "bk" "output").1,
   (c5_roundtrip_and_overwrite [37, 80, 68, 70] [1, 2, 3] (by decide) (by decide)
      [] "bk" "output").2.2.1⟩

/-! ### Claim C6 -/

/-- C6, as stated, is false: acceptance is decided on the length of the
`strip()`ped text, not the text length.  A frame whose body text is 120
characters (60 letters plus 60 trailing spaces) meets the claimed
length-≥-100 test, yet the scan skips it and reports failure. -/
theorem c6_strip_threshold_counterexample :
    100 ≤ (String.mk (List.replicate 60 'a' ++ List.replicate 60 ' ')).length
    ∧ (extract_iframe_content
        [⟨some "frame-src",
          some ⟨some (String.mk (List.replicate 60 'a' ++ List.replicate 60 ' '))⟩,
          true⟩] "bk").1 = none := by
  refine ⟨by decide, by decide⟩

/-- C6 amended: the scan accepts the first frame (in document order) whose
content document resolves, whose body text is present and non-empty, and
whose whitespace-stripped text has at least 100 characters; it returns that
frame's 1-based index, source URL, text and text length, skips every frame
failing those tests, and signals failure when no frame qualifies. -/
theorem c6_first_qualifying_frame :
    ∀ (frames : List Frame) (book_id : String),
      (extract_iframe_content frames book_id).1 =
        (firstQual frames 0).map
          (fun q => ⟨q.1, q.2.src, frameText q.2, (frameText q.2).length⟩) := by
  intro frames bid
  cases frames with
  | nil => rfl
  | cons f t =>
    show (scanFrames bid (f :: t) 0).1 = _
    exact scanFrames_fst (f :: t) 0 bid

/-! ### Claim C7 -/

/-- C7, as stated, is false: the screenshot is captured only for the frame
the scan accepts, not for every attempted frame.  With two frames where the
first is attempted but skipped (unresolvable content document) and the
second accepted, the trace holds two frame attempts but a single screenshot
event, none of it for frame 1. -/
theorem c7_screenshot_per_attempt_counterexample :
    extract_iframe_content
      [⟨some "a", none, true⟩,
       ⟨some "b", some ⟨some (String.mk (List.replicate 120 'a'))⟩, true⟩] "bk"
    = (some ⟨2, some "b", String.mk (List.replicate 120 'a'), 120⟩,
       [Ev.frameTried 1, Ev.frameTried 2, Ev.screenshot "bk" 2 true]) := by
  decide

/-- C7 amended: exactly one screenshot is attempted per run when a frame is
accepted (named with the item id and that frame's 1-based index) and none
otherwise, and a screenshot failure never changes the scan's outcome — the
accepted frame and returned data are identical whether every screenshot
succeeds or every screenshot fails. -/
theorem c7_screenshot_best_effort :
    ∀ (frames : List Frame) (book_id : String) (b : Bool),
      (extract_iframe_content (frames.map (setShot b)) book_id).1 =
        (extract_iframe_content frames book_id).1
      ∧ ((extract_iframe_content frames book_id).2.filter isShot).length =
          (if (extract_iframe_content frames book_id).1.isSome then 1 else 0) := by
  intro frames bid b
  constructor
  · cases frames with
    | nil => rfl
    | cons f t =>
      show (scanFrames bid (List.map (setShot b) (f :: t)) 0).1 = (scanFrames bid (f :: t) 0).1
      exact scanFrames_shot_invariant (f :: t) 0 bid b
  · cases frames with
    | nil => rfl
    | cons f t =>
      show ((scanFrames bid (f :: t) 0).2.filter isShot).length = _
      exact scanFrames_shots (f :: t) 0 bid

/-! ### Claim C8 -/

/-- Frame text for the batch scenario: a `var pdfData` payload plus enough
filler to pass the 100-character content threshold. -/
def scenarioFrameText : String :=
  String.mk ("var pdfData = \"JVBERg==\";".data ++ List.replicate 80 'a')

/-- A fully healthy world for one item: browser launches, navigation
succeeds, one frame carrying the payload. -/
def scenarioEnv : Env :=
  ⟨true, true, [⟨some "viewer", some ⟨some scenarioFrameText⟩, true⟩], "t", none⟩

/-- First batch URL (valid, succeeds). -/
def batchUrl1 : String := "https://library.alkafeel.net/dic/book/?e=a1"

/-- Second batch URL (fails validation). -/
def batchUrl2 : String := "https://google.com"

/-- Third batch URL (valid, succeeds). -/
def batchUrl3 : String := "https://library.alkafeel.net/dic/book/?e=a3"

/-- C8: in any uncancelled batch the runner processes the URLs strictly in
input order, one at a time, never halting on a failure — every URL
contributes exactly one result, appended to the successful or failed list by
its success flag — and `success_rate` is the successful count divided by the
total as a percentage.  In the 3-URL scenario with the 2nd failing
validation the summary reports total 3, two successes and one failure in
input order, and rate 200/3 — which prints as 66.7 at one decimal. -/
theorem c8_batch_order_and_rate :
    (∀ (envf : String → Env) (output_dir : String) (urls : List String),
      (∀ u ∈ urls, (extract_book (envf u) u output_dir).1 ≠ .cancelled) →
      urls ≠ [] →
      extract_multiple_books envf output_dir urls =
        .ok { total_books := urls.length,
              successful := (urls.map (resultOf envf output_dir)).filter (fun r => r.success),
              failed := (urls.map (resultOf envf output_dir)).filter (fun r => !r.success),
              success_rate :=
                ((((urls.map (resultOf envf output_dir)).filter (fun r => r.success)).length : ℚ))
                  / ((urls.length : ℚ)) * 100 })
    ∧ (extract_multiple_books (fun _ => scenarioEnv) "output"
        [batchUrl1, batchUrl2, batchUrl3]).toOption.map
          (fun S => (S.total_books, S.successful.length, S.failed.length,
                     S.successful.map (fun r => r.url), S.failed.map (fun r => r.url)))
        = some (3, 2, 1, [batchUrl1, batchUrl3], [batchUrl2])
    ∧ (extract_multiple_books (fun _ => scenarioEnv) "output"
        [batchUrl1, batchUrl2, batchUrl3]).toOption.map (fun S => S.success_rate)
        = some (200 / 3)
    ∧ round ((10 : ℚ) * (200 / 3)) = 667 := by
  have hgen : ∀ (envf : String → Env) (output_dir : String) (urls : List String),
      (∀ u ∈ urls, (extract_book (envf u) u output_dir).1 ≠ .cancelled) →
      urls ≠ [] →
      extract_multiple_books envf output_dir urls =
        .ok { total_books := urls.length,
              successful := (urls.map (resultOf envf output_dir)).filter (fun r => r.success),
              failed := (urls.map (resultOf envf output_dir)).filter (fun r => !r.success),
              success_rate :=
                ((((urls.map (resultOf envf output_dir)).filter (fun r => r.success)).length : ℚ))
                  / ((urls.length : ℚ)) * 100 } := by
    intro envf output_dir urls hnc hne
    unfold extract_multiple_books
    rw [batchLoop_filter urls envf output_dir hnc]
    have hlen : ¬ (urls.length = 0) := fun h => hne (List.length_eq_zero.mp h)
    simp [hlen]
  refine ⟨hgen, by decide, ?_, ?_⟩
  · rw [hgen (fun _ => scenarioEnv) "output" [batchUrl1, batchUrl2, batchUrl3]
      (by decide) (by decide)]
    have h2 : ((([batchUrl1, batchUrl2, batchUrl3].map
        (resultOf (fun _ => scenarioEnv) "output")).filter (fun r => r.success)).length) = 2 := by
      decide
    simp only [Except.toOption, Option.map, h2]
    norm_num
  · rw [round_eq]
    refine Int.floor_eq_iff.mpr ⟨by norm_num, by norm_num⟩

/-- C8 witness: a single-URL batch whose item fails validation still yields
a summary with that result filed under failures. -/
theorem c8_batch_witness :
    extract_multiple_books (fun _ => scenarioEnv) "output" [batchUrl2] =
      .ok { total_books := [batchUrl2].length,
            successful :=
              ([batchUrl2].map (resultOf (fun _ => scenarioEnv) "output")).filter
                (fun r => r.success),
            failed :=
              ([batchUrl2].map (resultOf (fun _ => scenarioEnv) "output")).filter
                (fun r => !r.success),
            success_rate :=
              (((([batchUrl2].map (resultOf (fun _ => scenarioEnv) "output")).filter
                  (fun r => r.success)).length : ℚ))
                / (([batchUrl2].length : ℚ)) * 100 } :=
  c8_batch_order_and_rate.1 (fun _ => scenarioEnv) "output" [batchUrl2]
    (by decide) (by decide)

/-! ### Claim C10 -/

/-- C10: invoked with an empty URL list the batch runner returns no summary:
the loop contributes nothing and the `success_rate` line divides the
successful count by zero, raising an unhandled `ZeroDivisionError` — so the
documented total-at-least-1 precondition is necessary. -/
theorem c10_empty_batch_zero_division :
    ∀ (envf : String → Env) (output_dir : String),
      extract_multiple_books envf output_dir [] = .error .zeroDivision := by
  intro envf output_dir
  rfl

end Alkafeel
